import Mathlib

/-!
# Shallow embedding of the RFID attendance service (src/app.py)

This file models, in Lean, the authentication / request-validation pipeline
and the pooled persistence layer of the Flask backend in `src/app.py`, and
proves (or refutes) the specification claims about it.

Modelling conventions:
* JSON bodies are association lists `List (String × String)`; a request whose
  body failed to parse as a mapping is `none` (Python `get_json` raising).
* JWT tokens are modelled as a claim list plus the key they were signed with;
  signature verification is equality of keys (a faithful abstraction of HMAC
  for a collision-free MAC).
* Timestamps are integers (seconds since epoch); `datetime.timedelta(hours=h)`
  is `h * 3600` seconds.
* The psycopg2 connection pool is a pair of counters (free connections,
  outstanding leases).  `getconn` moves one from free to leased, `putconn`
  moves it back, `putconn(close=True)` drops the leased connection without
  returning it (the real pool lazily replaces closed connections).
* Exceptions are modelled by explicit result constructors; the outcome of the
  post-acquire liveness probe (`SELECT 1`) is an input parameter, since it
  depends on the external database.  `psycopg2.OperationalError` is a subclass
  of `psycopg2.DatabaseError` but not of `psycopg2.InterfaceError`; the model
  mirrors which `except` clause each exception class reaches.
-/

namespace RFIDApp

/-- A JWT claim value: the app only puts ints (`sub`, `exp`) and strings
(`name`) into tokens. -/
inductive Claim where
  | num (n : Int)
  | str (s : String)
deriving DecidableEq, Repr

/-- A signed JWT, modelled as its payload plus the signing key used.
`jwt.decode(token, key, ...)` succeeds exactly when the keys agree. -/
structure Token where
  claims : List (String × Claim)
  key : String
deriving DecidableEq, Repr

/-- A JSON value appearing in a response body. -/
inductive JVal where
  | str (s : String)
  | num (n : Int)
  | boolean (b : Bool)
  | strList (xs : List String)
  | tok (t : Token)
deriving DecidableEq, Repr

/-- An HTTP response: status code plus JSON object body (insertion-ordered,
as Python dicts passed to `jsonify` are). -/
structure Response where
  status : Nat
  body : List (String × JVal)
deriving DecidableEq, Repr

/-- The Authorization header of a request, as `token_required` distinguishes
it: absent, present but not of the `Bearer <x>` shape, or a bearer token. -/
inductive AuthHeader where
  | missing
  | notBearer (raw : String)
  | bearer (t : Token)
deriving DecidableEq, Repr

/-- An inbound HTTP request, restricted to what the modelled endpoints read:
the Authorization header, the JSON content-type flag, and the parsed body
(`none` when `get_json` fails / the body is not a mapping). -/
structure Request where
  authHeader : AuthHeader
  isJson : Bool
  body : Option (List (String × String))
deriving DecidableEq, Repr

/-- A row of the `users` table. -/
structure User where
  id : Int
  name : String
  password_hash : String
  rfid_uid : Option String
deriving DecidableEq, Repr

/-- A row of the `attendance` table. -/
structure AttendanceRecord where
  id : Int
  user_id : Int
  timestamp : Int
deriving DecidableEq, Repr

/-- The persistent store: the two tables plus the sequence feeding
`attendance.id`. -/
structure Store where
  users : List User
  attendance : List AttendanceRecord
  nextAttendanceId : Int
deriving DecidableEq, Repr

/-- The connection pool, reduced to its counters: connections sitting free in
the pool and connections currently leased to requests. -/
structure Pool where
  free : Nat
  leased : Nat
deriving DecidableEq, Repr

/-- `pool.getconn()`: hand a free connection out. -/
def Pool.getconn (p : Pool) : Pool :=
  { free := p.free - 1, leased := p.leased + 1 }

/-- `pool.putconn(conn)`: return a leased connection to the free list. -/
def Pool.putconn (p : Pool) : Pool :=
  { free := p.free + 1, leased := p.leased - 1 }

/-- `pool.putconn(conn, close=True)`: the leased connection is closed and
discarded, not returned to the free list. -/
def Pool.putconnClose (p : Pool) : Pool :=
  { free := p.free, leased := p.leased - 1 }

/-- Outcome of the `SELECT 1` liveness probe run by `get_db_connection`
right after acquiring a connection. -/
inductive ProbeOutcome where
  | ok
  | interfaceError
  | otherError
deriving DecidableEq, Repr

/-- Result of `get_db_connection()` as seen by a caller, together with the
pool state it leaves behind. -/
inductive AcquireResult where
  | aborted (status : Nat) (msg : String)
  | raised (p : Pool)
  | ok (p : Pool)
deriving DecidableEq, Repr

/-- `get_db_connection` (src/app.py lines 86-99).  When the pool is `None`
it calls `abort(500, "Database connection unavailable")`.  Otherwise it takes
a connection and probes it with `SELECT 1`; an `InterfaceError` from the probe
closes that connection and takes a fresh one; any other exception from the
probe propagates to the caller with the connection still leased (the `except`
clause only catches `psycopg2.InterfaceError`). -/
def get_db_connection (pool : Option Pool) (probe : ProbeOutcome) : AcquireResult :=
  match pool with
  | none => .aborted 500 "Database connection unavailable"
  | some p =>
    let p1 := p.getconn
    match probe with
    | .ok => .ok p1
    | .interfaceError => .ok (Pool.getconn (Pool.putconnClose p1))
    | .otherError => .raised p1

/-- `release_db_connection` (src/app.py lines 102-104). -/
def release_db_connection (p : Pool) : Pool :=
  p.putconn

/-- `app.config['JWT_SECRET']` (src/app.py line 56):
`os.getenv("JWT_SECRET", "fallback-secret-for-dev")`. -/
def jwt_secret_config (env : List (String × String)) : String :=
  (env.lookup "JWT_SECRET").getD "fallback-secret-for-dev"

/-- `app.config['JWT_EXPIRATION_HOURS']` (src/app.py line 57):
`int(os.getenv("JWT_EXPIRATION_HOURS", 1))`.  The argument is the raw
environment value; `none` means the variable is unset, and a set value that
`int()` cannot parse makes startup raise, modelled by `none` in the result. -/
def jwt_expiration_hours_config (envVal : Option String) : Option Nat :=
  match envVal with
  | none => some 1
  | some s => s.toNat?

/-- Result of `jwt.decode` inside `token_required`. -/
inductive DecodeResult where
  | expired
  | invalid
  | ok (payload : List (String × Claim))
deriving DecidableEq, Repr

/-- `jwt.decode(token, secret, algorithms=["HS256"])` at time `now`:
a wrong key fails signature verification (`InvalidTokenError`); a correct key
with `exp ≤ now` raises `ExpiredSignatureError`; otherwise the payload is
returned. -/
def jwt_decode (t : Token) (secret : String) (now : Int) : DecodeResult :=
  if t.key ≠ secret then .invalid
  else
    match t.claims.lookup "exp" with
    | some (.num e) => if e ≤ now then .expired else .ok t.claims
    | _ => .ok t.claims

/-- The `token_required` decorator (src/app.py lines 135-160): header check,
then decode; on success the `sub` claim becomes `current_user`.  `.error r`
short-circuits with response `r`; `.ok c` proceeds into the wrapped function
with `c` as the current user. -/
def token_required_check (secret : String) (now : Int) (req : Request) :
    Except Response Claim :=
  match req.authHeader with
  | .missing => .error ⟨401, [("error", .str "Missing or invalid authorization header")]⟩
  | .notBearer _ => .error ⟨401, [("error", .str "Missing or invalid authorization header")]⟩
  | .bearer t =>
    match jwt_decode t secret now with
    | .expired => .error ⟨401, [("error", .str "Token has expired")]⟩
    | .invalid => .error ⟨401, [("error", .str "Invalid token")]⟩
    | .ok payload =>
      match payload.lookup "sub" with
      | some c => .ok c
      | none => .error ⟨500, [("error", .str "Internal server error"),
                              ("message", .str "An unexpected error occurred")]⟩

/-- The `validate_json(schema)` decorator (src/app.py lines 107-130).
`some (r, logs)` short-circuits with response `r` after emitting `logs`;
`none` falls through to the wrapped handler. -/
def validate_json (schema : List String) (req : Request) :
    Option (Response × List String) :=
  if ¬ req.isJson then
    some (⟨400, [("error", .str "Request must be JSON")]⟩, [])
  else
    match req.body with
    | none =>
      some (⟨400, [("error", .str "Invalid JSON format")]⟩, ["JSON validation error"])
    | some data =>
      let missing := schema.filter (fun field => (data.lookup field).isNone)
      if missing = [] then none
      else
        some (⟨400, [("error", .str "Missing required fields"),
                     ("missing", .strList missing)]⟩, [])

/-- Injection of token claim values into response JSON values, as `jsonify`
serialises whatever Python value sits in the decoded payload. -/
def Claim.toJVal : Claim → JVal
  | .num n => .num n
  | .str s => .str s

/-- Python `str.strip()`: drop leading and trailing whitespace. -/
def pyStrip (s : String) : String :=
  String.mk
    (((s.toList.dropWhile Char.isWhitespace).reverse.dropWhile
        Char.isWhitespace).reverse)

/-- SQL `LOWER` / Python `str.lower()`: lowercase every character. -/
def pyLower (s : String) : String :=
  String.mk (s.toList.map Char.toLower)

/-- The SQL lookup in `login`:
`SELECT id, name, password_hash FROM users WHERE LOWER(name) = LOWER(%s)`. -/
def findUserByName (st : Store) (username : String) : Option User :=
  st.users.find? (fun u => pyLower u.name = pyLower username)

/-- The SQL lookup in `record_attendance`:
`SELECT id, name FROM users WHERE rfid_uid = %s`. -/
def findUserByRfid (st : Store) (rfid : String) : Option User :=
  st.users.find? (fun u => u.rfid_uid = some rfid)

/-- The claim dict `jwt.encode` receives in `login` (src/app.py lines
277-283): `sub`, `name`, and `exp = utcnow() + timedelta(hours=TTL)`. -/
def loginTokenClaims (u : User) (now : Int) (ttlHours : Nat) :
    List (String × Claim) :=
  [("sub", .num u.id), ("name", .str u.name),
   ("exp", .num (now + (ttlHours : Int) * 3600))]

/-- The body of the `login` handler (src/app.py lines 239-296), after
`validate_json` has let the request through.  `checkpw` is the external
`bcrypt.checkpw` collaborator.  Returns the response together with the log
lines the handler emits (`logging` is configured at DEBUG level, so every
`logger.debug` call is emitted). -/
def login_handler (checkpw : String → String → Bool) (secret : String)
    (ttlHours : Nat) (now : Int) (st : Store)
    (usernameRaw passwordRaw : String) : Response × List String :=
  let logs0 := ["--- Login Attempt ---", "Username Received: " ++ usernameRaw]
  let username := pyStrip usernameRaw
  let password := pyStrip passwordRaw
  match findUserByName st username with
  | none =>
    (⟨401, [("error", .str "Invalid credentials")]⟩,
     logs0 ++ ["Database User: None"])
  | some u =>
    let logs1 := logs0 ++
      ["Database User: (" ++ toString u.id ++ ", " ++ u.name ++ ", "
         ++ u.password_hash ++ ")",
       "Stored Hash: " ++ u.password_hash,
       "Input Password: " ++ password]
    let isValid := checkpw password u.password_hash
    let logs2 := logs1 ++
      ["Password Valid: " ++ (if isValid then "True" else "False")]
    if isValid then
      let t : Token := ⟨loginTokenClaims u now ttlHours, secret⟩
      (⟨200, [("token", .tok t), ("user_id", .num u.id),
              ("user_name", .str u.name)]⟩,
       logs2 ++ ["Successful login for user: " ++ u.name])
    else
      (⟨401, [("error", .str "Invalid credentials")]⟩, logs2)

/-- The full `/api/auth/login` endpoint: `validate_json(["username",
"password"])` wrapped around `login_handler`.  The handler body acquires a
connection; this model assumes the pool is live for login (the pooled
failure paths are modelled on `record_attendance_endpoint`, whose decorator
stack and `try/except/finally` structure the source shares). -/
def login_endpoint (checkpw : String → String → Bool) (secret : String)
    (ttlHours : Nat) (now : Int) (st : Store) (req : Request) :
    Response × List String :=
  match validate_json ["username", "password"] req with
  | some (r, lg) => (r, lg)
  | none =>
    let data := req.body.getD []
    login_handler checkpw secret ttlHours now st
      ((data.lookup "username").getD "") ((data.lookup "password").getD "")

/-- The body of the `record_attendance` handler once a live connection is in
hand (src/app.py lines 310-341): look the tag up; miss → 404 carrying the
tag; hit → insert one attendance row with a server-assigned timestamp and
commit. -/
def record_attendance_handler (tstamp : Int) (rfid : String) (st : Store) :
    Response × Store :=
  match findUserByRfid st rfid with
  | none =>
    (⟨404, [("error", .str "RFID not registered"), ("rfid_uid", .str rfid)]⟩, st)
  | some u =>
    let recId := st.nextAttendanceId
    let st' : Store :=
      { users := st.users,
        attendance := st.attendance ++ [⟨recId, u.id, tstamp⟩],
        nextAttendanceId := recId + 1 }
    (⟨200, [("message", .str "Attendance recorded"), ("user_id", .num u.id),
            ("user_name", .str u.name), ("attendance_id", .num recId),
            ("timestamp", .num tstamp)]⟩, st')

/-- The full `POST /api/attendance` endpoint (src/app.py lines 301-351).
Decorators apply bottom-up, so at request time the outer `token_required`
wrapper runs BEFORE the inner `validate_json(["rfid_uid"])` wrapper, which
runs before the handler body.  Inside the handler:
* pool `None`: `get_db_connection` raises `abort(500, ...)`; the
  `HTTPException` is caught by the handler's own `except Exception` clause,
  which returns its generic 500 body; `conn` was never assigned so the
  `finally` clause releases nothing (there is nothing to release).
* probe raises a non-`InterfaceError` (e.g. `psycopg2.OperationalError`, a
  `DatabaseError` subclass): caught by `except psycopg2.DatabaseError`,
  whose `conn.rollback()` on the still-`None` local raises
  `AttributeError`; that propagates past `finally` (which releases nothing,
  `conn` being `None`) up to Flask's 500 error handler.  The connection
  taken by `getconn` inside `get_db_connection` stays leased.
* acquire succeeded: the handler runs and `finally` releases the
  connection.
Returns (response, store after, pool after). -/
def record_attendance_endpoint (secret : String) (now : Int) (tstamp : Int)
    (pool : Option Pool) (probe : ProbeOutcome) (req : Request) (st : Store) :
    Response × Store × Option Pool :=
  match token_required_check secret now req with
  | .error r => (r, st, pool)
  | .ok _ =>
    match validate_json ["rfid_uid"] req with
    | some (r, _) => (r, st, pool)
    | none =>
      let rfid := ((req.body.getD []).lookup "rfid_uid").getD ""
      match get_db_connection pool probe with
      | .aborted _ _ =>
        (⟨500, [("error", .str "Internal server error")]⟩, st, pool)
      | .raised p1 =>
        (⟨500, [("error", .str "Internal server error"),
                ("message", .str "An unexpected error occurred")]⟩, st, some p1)
      | .ok p1 =>
        let (r, st') := record_attendance_handler tstamp rfid st
        (r, st', some p1.putconn)

/-- The `/api/auth/validate` endpoint (src/app.py lines 163-183):
`token_required` first; the handler then re-reads the bearer token, logs the
token and the signing secret (`logger.info`, emitted at the configured DEBUG
level), decodes again, and reports validity and expiry.  Returns the
response together with the handler's log lines. -/
def validate_token_endpoint (secret : String) (now : Int) (req : Request) :
    Response × List String :=
  match token_required_check secret now req with
  | .error r => (r, [])
  | .ok c =>
    match req.authHeader with
    | .bearer t =>
      let logs := ["Validating token", "Using JWT_SECRET: " ++ secret]
      match t.claims.lookup "exp" with
      | some (.num e) =>
        (⟨200, [("valid", .boolean true), ("user_id", Claim.toJVal c),
                ("expires_at", .num e)]⟩, logs)
      | _ =>
        (⟨401, [("valid", .boolean false), ("error", .str "KeyError")]⟩,
         logs ++ ["Token validation failed"])
    | _ => (⟨401, [("valid", .boolean false)]⟩, [])

/-! ## Concrete fixtures used by witnesses and counterexamples -/

/-- A concrete configured signing secret. -/
def demoSecret : String := "configured-secret"

/-- A concrete stored bcrypt hash value. -/
def demoHash : String := "bcrypt-2b-12-demo-hash"

/-- A registered user carrying tag TAG-001. -/
def demoAlice : User := ⟨1, "alice", demoHash, some "TAG-001"⟩

/-- A store holding just `demoAlice` and no attendance rows. -/
def demoStore : Store := ⟨[demoAlice], [], 1⟩

/-- A concrete `bcrypt.checkpw` collaborator: accepts exactly the password
`hunter2` against `demoHash`. -/
def demoCheckpw (p h : String) : Bool :=
  p == "hunter2" && h == demoHash

/-- A token signed with the configured secret, unexpired at time 0. -/
def demoToken : Token :=
  ⟨[("sub", .num 1), ("name", .str "alice"), ("exp", .num 1000)], demoSecret⟩

/-- A pool with five free connections and no outstanding leases. -/
def demoPool : Pool := ⟨5, 0⟩

/-- A well-formed login request body. -/
def mkLoginReq (u p : String) : Request :=
  ⟨.missing, true, some [("username", u), ("password", p)]⟩

/-- An authorised attendance request for the registered tag. -/
def demoAttReq : Request :=
  ⟨.bearer demoToken, true, some [("rfid_uid", "TAG-001")]⟩

/-- An authorised attendance request for an unregistered tag. -/
def demoAttReq999 : Request :=
  ⟨.bearer demoToken, true, some [("rfid_uid", "TAG-999")]⟩

/-- An attendance request with no Authorization header AND a body missing
the required `rfid_uid` field. -/
def noAuthNoFieldReq : Request := ⟨.missing, true, some []⟩

/-- An attendance request with a non-Bearer Authorization header AND a body
missing the required `rfid_uid` field. -/
def badAuthNoFieldReq : Request := ⟨.notBearer "Basic abc", true, some []⟩

/-- A token-validation request carrying the demo bearer token. -/
def demoValReq : Request := ⟨.bearer demoToken, true, none⟩

/-! ## Claim theorems -/

/-- C9 (code_bug evidence): whenever `JWT_SECRET` is absent from the
environment, the loaded signing secret is silently the hardcoded insecure
default `fallback-secret-for-dev` — contradicting the requirement that
absence of the secret must not fall back to an insecure default. -/
theorem jwt_secret_silently_falls_back (env : List (String × String))
    (h : env.lookup "JWT_SECRET" = none) :
    jwt_secret_config env = "fallback-secret-for-dev" := by
  simp [jwt_secret_config, h]

/-- Witness for `jwt_secret_silently_falls_back`: the empty environment. -/
theorem jwt_secret_silently_falls_back_witness :
    ([] : List (String × String)).lookup "JWT_SECRET" = none ∧
    jwt_secret_config [] = "fallback-secret-for-dev" :=
  ⟨rfl, jwt_secret_silently_falls_back [] rfl⟩

/-- C2 (code_bug evidence): on a request whose post-acquire liveness probe
raises a non-`InterfaceError` exception (`psycopg2.OperationalError`), the
acquired connection is never released: the pool ends with one outstanding
lease although it started with zero, while the same request with a healthy
probe returns the pool to its prior state. -/
theorem probe_exception_leaks_connection :
    (record_attendance_endpoint demoSecret 0 100 (some demoPool) .otherError
        demoAttReq demoStore).2.2 = some ⟨4, 1⟩ ∧
    (record_attendance_endpoint demoSecret 0 100 (some demoPool) .ok
        demoAttReq demoStore).2.2 = some ⟨5, 0⟩ ∧
    demoPool.leased = 0 := by
  refine ⟨rfl, rfl, rfl⟩

/-- C3 counterexample: with the pool uninitialised (`None`), a fully
authorised well-formed attendance request is answered by the handler's
generic 500 Internal-server-error body, not by a 503 ServiceUnavailable. -/
theorem pool_disabled_returns_500_not_503 :
    (record_attendance_endpoint demoSecret 0 100 none .ok demoAttReq
        demoStore).1
      = ⟨500, [("error", .str "Internal server error")]⟩ ∧
    (record_attendance_endpoint demoSecret 0 100 none .ok demoAttReq
        demoStore).1.status ≠ 503 := by
  refine ⟨rfl, by decide⟩

/-- C3 amended: if the pool failed to initialise, every request that passes
authentication and validation (and so needs a connection) fails fast with
the handler's 500 Internal-server-error response — the store is untouched
and no exception escapes — rather than with a 503 ServiceUnavailable. -/
theorem pool_disabled_fails_fast (secret : String) (now tstamp : Int)
    (probe : ProbeOutcome) (req : Request) (st : Store) (c : Claim)
    (hauth : token_required_check secret now req = .ok c)
    (hval : validate_json ["rfid_uid"] req = none) :
    record_attendance_endpoint secret now tstamp none probe req st
      = (⟨500, [("error", .str "Internal server error")]⟩, st, none) := by
  simp [record_attendance_endpoint, hauth, hval, get_db_connection]

/-- Witness for `pool_disabled_fails_fast` at the demo request. -/
theorem pool_disabled_fails_fast_witness :
    record_attendance_endpoint demoSecret 0 100 none .ok demoAttReq demoStore
      = (⟨500, [("error", .str "Internal server error")]⟩, demoStore, none) :=
  pool_disabled_fails_fast demoSecret 0 100 .ok demoAttReq demoStore
    (.num 1) rfl rfl

/-- C1 counterexample: a request to the protected attendance endpoint whose
body is missing the required `rfid_uid` field AND whose bearer token is
missing receives the 401 Unauthorized response, not the 400 MalformedRequest
response the claim promises — because `@token_required` is the outer
decorator and runs before `@validate_json`. -/
theorem auth_beats_validation_cex :
    (record_attendance_endpoint demoSecret 0 100 (some demoPool) .ok
        noAuthNoFieldReq demoStore).1
      = ⟨401, [("error", .str "Missing or invalid authorization header")]⟩ ∧
    (record_attendance_endpoint demoSecret 0 100 (some demoPool) .ok
        noAuthNoFieldReq demoStore).1.status ≠ 400 := by
  refine ⟨rfl, by decide⟩

/-- C1 amended: on the protected attendance endpoint token verification runs
FIRST and the content-type/structure check second: a failing token check
short-circuits with its 401 response before validation (so a request missing
both the token and a required field receives Unauthorized, not
MalformedRequest), a passing token check followed by a failing structure
check short-circuits with the 400 MalformedRequest response, and in either
short-circuit the store and pool are untouched — the handler body runs only
after both checks pass. -/
theorem record_attendance_auth_runs_first (secret : String) (now tstamp : Int)
    (pool : Option Pool) (probe : ProbeOutcome) (req : Request) (st : Store) :
    (∀ r : Response, token_required_check secret now req = .error r →
      record_attendance_endpoint secret now tstamp pool probe req st
        = (r, st, pool)) ∧
    (∀ (c : Claim) (r : Response) (lg : List String),
      token_required_check secret now req = .ok c →
      validate_json ["rfid_uid"] req = some (r, lg) →
      record_attendance_endpoint secret now tstamp pool probe req st
        = (r, st, pool)) := by
  constructor
  · intro r h
    simp [record_attendance_endpoint, h]
  · intro c r lg h1 h2
    simp [record_attendance_endpoint, h1, h2]

/-- Witness for `record_attendance_auth_runs_first`: both short-circuits at
concrete requests. -/
theorem record_attendance_auth_runs_first_witness :
    record_attendance_endpoint demoSecret 0 100 (some demoPool) .ok
        noAuthNoFieldReq demoStore
      = (⟨401, [("error", .str "Missing or invalid authorization header")]⟩,
         demoStore, some demoPool) ∧
    record_attendance_endpoint demoSecret 0 100 (some demoPool) .ok
        ⟨.bearer demoToken, true, some []⟩ demoStore
      = (⟨400, [("error", .str "Missing required fields"),
                ("missing", .strList ["rfid_uid"])]⟩,
         demoStore, some demoPool) :=
  ⟨(record_attendance_auth_runs_first demoSecret 0 100 (some demoPool) .ok
      noAuthNoFieldReq demoStore).1 _ rfl,
   (record_attendance_auth_runs_first demoSecret 0 100 (some demoPool) .ok
      ⟨.bearer demoToken, true, some []⟩ demoStore).2 (.num 1) _ [] rfl rfl⟩

/-- C7 counterexample: a request missing the required `rfid_uid` field whose
Authorization header is not a bearer token receives 401 Unauthorized, not
MalformedRequest: on the protected endpoint the malformed body does not
determine the response kind when the token check fails first. -/
theorem missing_field_can_yield_401_cex :
    (record_attendance_endpoint demoSecret 0 100 (some demoPool) .ok
        badAuthNoFieldReq demoStore).1
      = ⟨401, [("error", .str "Missing or invalid authorization header")]⟩ ∧
    (record_attendance_endpoint demoSecret 0 100 (some demoPool) .ok
        badAuthNoFieldReq demoStore).1.status ≠ 400 := by
  refine ⟨rfl, by decide⟩

/-- C7 amended: a body missing a required field always makes `validate_json`
short-circuit with the 400 MalformedRequest (`Missing required fields`)
response naming the missing field, and the handler body never executes: on
login the response is exactly that 400 for every store (so no store call can
influence or be influenced by it), and on the protected attendance endpoint
the same holds once the token check passes, while a failing token check
yields its 401 instead — in every case the store and pool are unchanged. -/
theorem missing_field_short_circuits :
    (∀ (schema : List String) (req : Request) (data : List (String × String))
        (f : String),
      req.isJson = true → req.body = some data → f ∈ schema →
      data.lookup f = none →
      ∃ ms, f ∈ ms ∧
        validate_json schema req
          = some (⟨400, [("error", .str "Missing required fields"),
                         ("missing", .strList ms)]⟩, [])) ∧
    (∀ (checkpw : String → String → Bool) (secret : String) (ttlHours : Nat)
        (now : Int) (st : Store) (req : Request) (r : Response)
        (lg : List String),
      validate_json ["username", "password"] req = some (r, lg) →
      login_endpoint checkpw secret ttlHours now st req = (r, lg)) ∧
    (∀ (secret : String) (now tstamp : Int) (pool : Option Pool)
        (probe : ProbeOutcome) (req : Request) (st : Store) (r : Response)
        (lg : List String) (c : Claim),
      token_required_check secret now req = .ok c →
      validate_json ["rfid_uid"] req = some (r, lg) →
      record_attendance_endpoint secret now tstamp pool probe req st
        = (r, st, pool)) ∧
    (∀ (secret : String) (now tstamp : Int) (pool : Option Pool)
        (probe : ProbeOutcome) (req : Request) (st : Store) (r : Response),
      token_required_check secret now req = .error r →
      record_attendance_endpoint secret now tstamp pool probe req st
        = (r, st, pool)) := by
  refine ⟨?_, ?_, ?_, ?_⟩
  · intro schema req data f hjson hbody hmem hlook
    have hf : f ∈ schema.filter (fun field => (data.lookup field).isNone) :=
      List.mem_filter.mpr ⟨hmem, by simp [hlook]⟩
    have hne : schema.filter (fun field => (data.lookup field).isNone) ≠ [] :=
      List.ne_nil_of_mem hf
    exact ⟨_, hf, by simp [validate_json, hjson, hbody, hne]⟩
  · intro checkpw secret ttlHours now st req r lg h
    simp [login_endpoint, h]
  · intro secret now tstamp pool probe req st r lg c h1 h2
    simp [record_attendance_endpoint, h1, h2]
  · intro secret now tstamp pool probe req st r h
    simp [record_attendance_endpoint, h]

/-- Witness for `missing_field_short_circuits`: a login request missing the
`password` field. -/
theorem missing_field_short_circuits_witness :
    login_endpoint demoCheckpw demoSecret 1 0 demoStore
        ⟨.missing, true, some [("username", "alice")]⟩
      = (⟨400, [("error", .str "Missing required fields"),
                ("missing", .strList ["password"])]⟩, []) :=
  missing_field_short_circuits.2.1 demoCheckpw demoSecret 1 0 demoStore
    ⟨.missing, true, some [("username", "alice")]⟩ _ [] rfl

/-- C4 (code_bug evidence): secrets DO appear in the log output.  A login
request for an existing user logs the stripped plaintext password and the
stored password hash (`logger.debug`, emitted at the configured DEBUG
level), and a token-validation request logs the signing secret
(`logger.info`).  This contradicts the claim that none of the three ever
appears in log output. -/
theorem secrets_appear_in_logs :
    "Input Password: hunter2" ∈
      (login_endpoint demoCheckpw demoSecret 1 0 demoStore
        (mkLoginReq "alice" "hunter2")).2 ∧
    ("Stored Hash: " ++ demoHash) ∈
      (login_endpoint demoCheckpw demoSecret 1 0 demoStore
        (mkLoginReq "alice" "hunter2")).2 ∧
    ("Using JWT_SECRET: " ++ demoSecret) ∈
      (validate_token_endpoint demoSecret 0 demoValReq).2 := by
  refine ⟨?_, ?_, ?_⟩ <;> decide

/-- C5: a login attempt against an existing username with a password that
fails verification and a login attempt with a username matching no user
produce literally identical responses: the same body (the single generic
`Invalid credentials` error) and the same 401 status. -/
theorem login_uniform_invalid_credentials
    (checkpw : String → String → Bool) (secret : String) (ttlHours : Nat)
    (now : Int) (st : Store) (u1 p1 u2 p2 : String) (usr : User)
    (hfind : findUserByName st (pyStrip u1) = some usr)
    (hbad : checkpw (pyStrip p1) usr.password_hash = false)
    (hnone : findUserByName st (pyStrip u2) = none) :
    (login_endpoint checkpw secret ttlHours now st (mkLoginReq u1 p1)).1
      = (login_endpoint checkpw secret ttlHours now st (mkLoginReq u2 p2)).1 ∧
    (login_endpoint checkpw secret ttlHours now st (mkLoginReq u2 p2)).1
      = ⟨401, [("error", .str "Invalid credentials")]⟩ := by
  constructor <;>
    simp [login_endpoint, mkLoginReq, validate_json, login_handler,
          List.lookup, hfind, hbad, hnone]

/-- Witness for `login_uniform_invalid_credentials`: wrong password for
`alice` versus the unknown username `mallory`. -/
theorem login_uniform_invalid_credentials_witness :
    (login_endpoint demoCheckpw demoSecret 1 0 demoStore
        (mkLoginReq "alice" "wrongpass")).1
      = (login_endpoint demoCheckpw demoSecret 1 0 demoStore
          (mkLoginReq "mallory" "whatever")).1 ∧
    (login_endpoint demoCheckpw demoSecret 1 0 demoStore
        (mkLoginReq "mallory" "whatever")).1
      = ⟨401, [("error", .str "Invalid credentials")]⟩ :=
  login_uniform_invalid_credentials demoCheckpw demoSecret 1 0 demoStore
    "alice" "wrongpass" "mallory" "whatever" demoAlice rfl rfl rfl

/-- C6 counterexample: the token issued by a successful concrete login
carries the claim keys `sub`, `name`, `exp` — it contains a `name` claim the
specified claim set does not mention and contains NO `issued_at` claim, so
its claim set is not exactly
`{subject = user_id, issued_at = now, expires_at = now + TTL}`. -/
theorem issued_token_claims_cex :
    (login_endpoint demoCheckpw demoSecret 1 0 demoStore
        (mkLoginReq "alice" "hunter2")).1.body.lookup "token"
      = some (.tok ⟨[("sub", .num 1), ("name", .str "alice"),
                     ("exp", .num 3600)], demoSecret⟩) ∧
    (loginTokenClaims demoAlice 0 1).map Prod.fst = ["sub", "name", "exp"] ∧
    "iat" ∉ (loginTokenClaims demoAlice 0 1).map Prod.fst := by
  refine ⟨?_, ?_, ?_⟩ <;> decide

/-- C6 amended: a successful login issues a token signed with the configured
secret whose embedded claim set is exactly
`{sub = user_id, name = user_name, exp = now + TTL}` — there is no
`issued_at` claim — and the TTL configuration defaults to 1 hour when the
`JWT_EXPIRATION_HOURS` environment variable is absent. -/
theorem issued_token_claims (checkpw : String → String → Bool)
    (secret : String) (ttlHours : Nat) (now : Int) (st : Store)
    (u p : String) (usr : User)
    (hfind : findUserByName st (pyStrip u) = some usr)
    (hok : checkpw (pyStrip p) usr.password_hash = true) :
    (login_endpoint checkpw secret ttlHours now st (mkLoginReq u p)).1
      = ⟨200, [("token", .tok ⟨[("sub", .num usr.id), ("name", .str usr.name),
                 ("exp", .num (now + (ttlHours : Int) * 3600))], secret⟩),
              ("user_id", .num usr.id), ("user_name", .str usr.name)]⟩ ∧
    jwt_expiration_hours_config none = some 1 := by
  refine ⟨?_, rfl⟩
  simp [login_endpoint, mkLoginReq, validate_json, login_handler,
        loginTokenClaims, List.lookup, hfind, hok]

/-- Witness for `issued_token_claims`: `alice` logging in with the correct
password. -/
theorem issued_token_claims_witness :
    (login_endpoint demoCheckpw demoSecret 1 0 demoStore
        (mkLoginReq "alice" "hunter2")).1
      = ⟨200, [("token", .tok ⟨[("sub", .num 1), ("name", .str "alice"),
                 ("exp", .num 3600)], demoSecret⟩),
              ("user_id", .num 1), ("user_name", .str "alice")]⟩ ∧
    jwt_expiration_hours_config none = some 1 :=
  issued_token_claims demoCheckpw demoSecret 1 0 demoStore
    "alice" "hunter2" demoAlice rfl rfl

/-- C8: an authorised, well-formed attendance submission whose `rfid_uid`
matches no registered user is answered with the 404 `RFID not registered`
response carrying the offending tag value, the store is returned unchanged
(zero attendance rows created), and the connection is released. -/
theorem unregistered_tag_rejected (secret : String) (now tstamp : Int)
    (p : Pool) (req : Request) (st : Store) (c : Claim) (rfid : String)
    (data : List (String × String))
    (hauth : token_required_check secret now req = .ok c)
    (hjson : req.isJson = true)
    (hbody : req.body = some data)
    (hfield : data.lookup "rfid_uid" = some rfid)
    (hmiss : findUserByRfid st rfid = none) :
    record_attendance_endpoint secret now tstamp (some p) .ok req st
      = (⟨404, [("error", .str "RFID not registered"),
                ("rfid_uid", .str rfid)]⟩,
         st, some (Pool.putconn (Pool.getconn p))) := by
  simp [record_attendance_endpoint, hauth, validate_json, hjson, hbody,
        hfield, get_db_connection, record_attendance_handler, hmiss]

/-- Witness for `unregistered_tag_rejected`: submitting the unregistered tag
TAG-999. -/
theorem unregistered_tag_rejected_witness :
    record_attendance_endpoint demoSecret 0 100 (some demoPool) .ok
        demoAttReq999 demoStore
      = (⟨404, [("error", .str "RFID not registered"),
                ("rfid_uid", .str "TAG-999")]⟩,
         demoStore, some (Pool.putconn (Pool.getconn demoPool))) :=
  unregistered_tag_rejected demoSecret 0 100 demoPool demoAttReq999 demoStore
    (.num 1) "TAG-999" [("rfid_uid", "TAG-999")] rfl rfl rfl rfl rfl

/-- C10: the login handler strips surrounding whitespace from both the
submitted username and the submitted password before the user lookup and the
password verification, so two login requests whose username and password
differ only in surrounding whitespace receive identical responses — in
particular two passwords differing only in surrounding whitespace verify
identically. -/
theorem login_trims_surrounding_whitespace
    (checkpw : String → String → Bool) (secret : String) (ttlHours : Nat)
    (now : Int) (st : Store) (u1 p1 u2 p2 : String)
    (hu : pyStrip u1 = pyStrip u2) (hp : pyStrip p1 = pyStrip p2) :
    (login_endpoint checkpw secret ttlHours now st (mkLoginReq u1 p1)).1
      = (login_endpoint checkpw secret ttlHours now st (mkLoginReq u2 p2)).1 := by
  simp [login_endpoint, mkLoginReq, validate_json, List.lookup]
  unfold login_handler
  rw [hu, hp]
  cases hfind : findUserByName st (pyStrip u2) with
  | none => simp [hfind]
  | some usr =>
    cases hv : checkpw (pyStrip p2) usr.password_hash <;> simp [hfind, hv]

/-- Witness for `login_trims_surrounding_whitespace`: ` alice ` with
` hunter2 ` versus `alice` with `hunter2`. -/
theorem login_trims_surrounding_whitespace_witness :
    (login_endpoint demoCheckpw demoSecret 1 0 demoStore
        (mkLoginReq " alice " " hunter2 ")).1
      = (login_endpoint demoCheckpw demoSecret 1 0 demoStore
          (mkLoginReq "alice" "hunter2")).1 :=
  login_trims_surrounding_whitespace demoCheckpw demoSecret 1 0 demoStore
    " alice " " hunter2 " "alice" "hunter2" (by decide) (by decide)

end RFIDApp
